import Mathlib

set_option autoImplicit false

/-!
Shallow embedding of the Bot Registry and Launch Scheduler subsystem
(`src/bots/core/launch_manager.py`) of the `ai_agents` repository.

Conventions of the embedding:
* Python's dynamically typed kwarg values become `PyVal` (a string or an
  opaque non-string value); `**kwargs` becomes an insertion-ordered
  association list.
* Python exceptions become the inductive `PyExc`; the variants mirror the
  `BotError` hierarchy of the source, plus `typeError` for Python's built-in
  `TypeError` and `generic` for arbitrary exceptions raised by bot callables.
  Dynamic metadata that no claim depends on (the `timestamp` field that every
  `BotError` stamps with `utcnow`, and the `available_bots` list attached to
  `BotNotFoundError` in `launch`) is not modelled.
* `time.time()` becomes an explicit `now : Int` parameter (seconds).
* Mutation of `LaunchManager` attributes becomes explicit state passing on
  `LMState`.
* `re.search` with `re.IGNORECASE` over the fixed pattern list becomes a
  per-pattern executable matcher over `List Char` (the patterns are simple
  enough that greedy matching with no backtracking is exact, because in each
  pattern the literal that follows `\s*` or `\s+` starts with a
  non-whitespace character).  Python's `\w`/`\s` are modelled at their ASCII
  core, which is exact on ASCII inputs.
-/

/-- A Python value as it can appear among launch kwargs: a string (the only
kind the security scanner inspects), Python's `None`, or some other
non-string value identified by an opaque tag. -/
inductive PyVal where
  | str (s : String)
  | none
  | other (tag : String)
  deriving DecidableEq

/-- Python `**kwargs`: an insertion-ordered association list (keys are unique
in an actual Python call, but the embedding does not need to assume it except
where noted). -/
abbrev Kwargs := List (String × PyVal)

/-- Lookup in a Python dict modelled as an association list: the first
binding of the key. -/
def dictGet (d : Kwargs) (k : String) : Option PyVal :=
  (d.find? (fun kv => kv.1 == k)).map (fun kv => kv.2)

/-- An arbitrary Python exception that is not one of the module's `BotError`
subclasses: its type name and message. -/
structure GenExc where
  typeName : String
  msg : String
  deriving DecidableEq

/-- The exceptions that can escape the launch-manager code paths.  The first
five variants mirror the `BotError` hierarchy of `launch_manager.py`
(`BotNotFoundError`, `BotLaunchError`, `BotValidationError`,
`BotSecurityError`, `BotRateLimitError`), carrying the constructor arguments
the source stores on the instance.  `typeError` is Python's built-in
`TypeError`; `generic` is an arbitrary exception propagated from a bot
callable or the HTTP layer. -/
inductive PyExc where
  | botNotFound (botName : String)
  | botLaunch (botName : String) (cause : Option String)
  | botValidation (botName : String) (validationErrors : List String)
  | botSecurity (botName : String) (violation : String) (meta : List (String × String))
  | botRateLimit (botName : String) (limitType : String) (attemptsInWindow : Nat)
  | typeError (msg : String)
  | generic (typeName : String) (msg : String)
  deriving DecidableEq

deriving instance DecidableEq for Except

/-- Python's `", ".join(xs)`. -/
def joinComma : List String → String
  | [] => ""
  | [x] => x
  | x :: xs => x ++ ", " ++ joinComma xs

/-- Python `str(exc)` for the modelled exceptions, following the message
formats built in each `__init__` of `launch_manager.py`. -/
def PyExc.pyStr : PyExc → String
  | .botNotFound n => "Bot '" ++ n ++ "' not found in registry"
  | .botLaunch n Option.none => "Failed to launch bot '" ++ n ++ "'"
  | .botLaunch n (Option.some c) => "Failed to launch bot '" ++ n ++ "': " ++ c
  | .botValidation n errs => "Bot '" ++ n ++ "' validation failed: " ++ joinComma errs
  | .botSecurity n v _ => "Security violation in bot '" ++ n ++ "': " ++ v
  | .botRateLimit n lt _ => "Bot '" ++ n ++ "' exceeded " ++ lt ++ " rate limit"
  | .typeError m => m
  | .generic _ m => m

/-! ### The security scanner's pattern matchers

`LaunchManager._validate_security` scans every string-valued kwarg with
`re.search(pattern, value, re.IGNORECASE)` over a fixed list of seven
patterns.  Each matcher below decides, at one starting position, whether the
pattern matches there; `searchAt` then tries every starting position, which
is exactly `re.search`. -/

/-- Python regex `\w` at its ASCII core: `[a-zA-Z0-9_]`. -/
def isWordChar (c : Char) : Bool :=
  c.isAlphanum || c == '_'

/-- Python regex `\s` at its ASCII core: space, tab, newline, carriage
return, vertical tab, form feed. -/
def isSpaceChar (c : Char) : Bool :=
  c == ' ' || c == '\t' || c == '\n' || c == '\r' || c == '\x0b' || c == '\x0c'

/-- Case-insensitive literal prefix test: `l` starts with the (already
lowercase) needle `p`, comparing characters lowercased as `re.IGNORECASE`
does. -/
def startsWithCI : List Char → List Char → Bool
  | _, [] => true
  | [], _ :: _ => false
  | c :: cs, p :: ps => (c.toLower == p) && startsWithCI cs ps

/-- Drop a maximal run of `\s` characters (greedy `\s*`). -/
def skipWS : List Char → List Char
  | [] => []
  | c :: cs => if isSpaceChar c then skipWS cs else c :: cs

/-- Does the position predicate `p` hold at some suffix of `l`?  This is
`re.search`: try every starting position, including the end. -/
def searchAt (p : List Char → Bool) : List Char → Bool
  | [] => p []
  | c :: cs => p (c :: cs) || searchAt p cs

/-- Matcher for `<script\b` at one position: the literal `<script`
case-insensitively, followed by a word boundary (end of input or a non-word
character; the character before the boundary, `t`, is a word character). -/
def scriptTagAt (l : List Char) : Bool :=
  startsWithCI l ("<script".toList) &&
    (match l.drop 7 with
     | [] => true
     | c :: _ => !(isWordChar c))

/-- Matcher for `javascript:` at one position. -/
def javascriptUriAt (l : List Char) : Bool :=
  startsWithCI l ("javascript:".toList)

/-- Matcher for `eval\s*\(` at one position.  Greedy whitespace skipping is
exact here because `(` is not a whitespace character. -/
def evalCallAt (l : List Char) : Bool :=
  startsWithCI l ("eval".toList) &&
    (match skipWS (l.drop 4) with
     | '(' :: _ => true
     | _ => false)

/-- Matcher for `exec\s*\(` at one position. -/
def execCallAt (l : List Char) : Bool :=
  startsWithCI l ("exec".toList) &&
    (match skipWS (l.drop 4) with
     | '(' :: _ => true
     | _ => false)

/-- Matcher for `__import__` at one position. -/
def dunderImportAt (l : List Char) : Bool :=
  startsWithCI l ("__import__".toList)

/-- Matcher for `\.\./` at one position: the literal `../`. -/
def pathTraversalAt (l : List Char) : Bool :=
  startsWithCI l ("../".toList)

/-- Matcher for `(drop|delete|insert|update)\s+table` at one position: one of
the four keywords, at least one whitespace character, then `table`, all
case-insensitive.  Greedy whitespace skipping is exact because `t` is not a
whitespace character. -/
def sqlMutationAt (l : List Char) : Bool :=
  ["drop", "delete", "insert", "update"].any (fun w =>
    startsWithCI l w.toList &&
      (match l.drop w.length with
       | [] => false
       | c :: cs =>
         isSpaceChar c && startsWithCI (skipWS (c :: cs)) ("table".toList)))

/-- The `suspicious_patterns` list of `_validate_security`, in source order:
each regex source string paired with its executable matcher. -/
def suspicious_patterns : List (String × (String → Bool)) :=
  [ ("<script\\b", fun s => searchAt scriptTagAt s.toList),
    ("javascript:", fun s => searchAt javascriptUriAt s.toList),
    ("eval\\s*\\(", fun s => searchAt evalCallAt s.toList),
    ("exec\\s*\\(", fun s => searchAt execCallAt s.toList),
    ("__import__", fun s => searchAt dunderImportAt s.toList),
    ("\\.\\./", fun s => searchAt pathTraversalAt s.toList),
    ("(drop|delete|insert|update)\\s+table", fun s => searchAt sqlMutationAt s.toList) ]

/-- First pattern (in source order) matching the string value, if any;
returns the regex source string, which the source puts in the error
metadata. -/
def scanValue (s : String) : Option String :=
  (suspicious_patterns.find? (fun p => p.2 s)).map (fun p => p.1)

/-- The kwarg scan of `_validate_security`: iterate kwargs in insertion
order; for each string-valued entry try the patterns in order; the first
match yields `(key, pattern)`.  Non-string values are skipped entirely. -/
def scanKwargs : Kwargs → Option (String × String)
  | [] => Option.none
  | (k, PyVal.str s) :: rest =>
    match scanValue s with
    | Option.some p => Option.some (k, p)
    | Option.none => scanKwargs rest
  | (_, _) :: rest => scanKwargs rest

/-! ### FloBot and dispatch -/

/-- The HTTP layer used by endpoint-backed bots: given the endpoint URL and
the serialized `{args, kwargs}` payload, produce the decoded response body or
raise.  `urllib.request.urlopen` and its failures are outside the subsystem,
so the embedding takes the transport as an oracle parameter. -/
abbrev HttpFn := String → List PyVal → Kwargs → Except GenExc String

/-- A bot callable: receives the positional args and kwargs, returns a value
or raises an arbitrary (non-`BotError`) exception. -/
abbrev BotCallable := List PyVal → Kwargs → Except GenExc PyVal

/-- The `FloBot` dataclass: name, metadata, and the two optional execution
modes. -/
structure FloBot where
  name : String
  category : String
  description : String
  launch_callable : Option BotCallable := Option.none
  api_endpoint : Option String := Option.none

/-- Python truthiness of the `api_endpoint` field: `None` and the empty
string are falsy. -/
def epTruthy : Option String → Bool
  | Option.none => false
  | Option.some s => !(s == "")

/-- The `TypeError` raised by the last-resort guard in `FloBot.run` /
`FloBot.run_async`.  The source executes
`raise BotValidationError(f"FloBot '{...}' has no launch method defined")`,
but `BotValidationError.__init__` has signature
`(self, bot_name, validation_errors, metadata=None)`: the call supplies only
one positional argument, so constructing the exception itself raises
`TypeError` before anything is raised as a `BotValidationError`. -/
def noLaunchMethodTypeError : PyExc :=
  PyExc.typeError
    "BotValidationError.__init__() missing 1 required positional argument: 'validation_errors'"

/-- `FloBot.run`: prefer the local callable (a bound function object is
always truthy); otherwise POST to the api endpoint when it is truthy;
otherwise fall through to the guard, which raises `TypeError` (see
`noLaunchMethodTypeError`).  Exceptions from the callable or transport
propagate as `generic`. -/
def FloBot.run (bot : FloBot) (http : HttpFn) (args : List PyVal) (kwargs : Kwargs) :
    Except PyExc PyVal :=
  match bot.launch_callable with
  | Option.some f =>
    match f args kwargs with
    | .ok v => .ok v
    | .error e => .error (PyExc.generic e.typeName e.msg)
  | Option.none =>
    if epTruthy bot.api_endpoint then
      match bot.api_endpoint with
      | Option.some ep =>
        match http ep args kwargs with
        | .ok body => .ok (PyVal.str body)
        | .error e => .error (PyExc.generic e.typeName e.msg)
      | Option.none => .error noLaunchMethodTypeError
    else
      .error noLaunchMethodTypeError

/-- `FloBot.run_async` performs the same dispatch as `FloBot.run`, merely
offloaded to an executor; its result/error behaviour is identical, so the
embedding reuses `FloBot.run`. -/
def FloBot.run_async (bot : FloBot) (http : HttpFn) (args : List PyVal) (kwargs : Kwargs) :
    Except PyExc PyVal :=
  bot.run http args kwargs

/-! ### BotRegistry -/

/-- The registry's `_bots` dict: an insertion-ordered map from name to bot. -/
abbrev BotRegistry := List (String × FloBot)

/-- `BotRegistry.get_bot`: dict lookup. -/
def get_bot (r : BotRegistry) (name : String) : Option FloBot :=
  (r.find? (fun kv => kv.1 == name)).map (fun kv => kv.2)

/-- Characters admitted by the name regex `^[a-zA-Z0-9_-]+$`. -/
def isValidNameChar (c : Char) : Bool :=
  c.isAlphanum || c == '_' || c == '-'

/-- The `validation_errors` list `BotRegistry.add_bot` accumulates, in
source order: empty name; neither execution mode (with Python truthiness, so
an empty endpoint string counts as absent); name pattern, checked only on
non-empty names; duplicate name; endpoint URL prefix, checked only on truthy
endpoints. -/
def add_bot_errors (r : BotRegistry) (bot : FloBot) : List String :=
  let e1 := if bot.name == "" then ["Bot name must be a non-empty string"] else []
  let e2 :=
    if bot.launch_callable.isNone && !(epTruthy bot.api_endpoint) then
      ["Bot must define either a callable or API endpoint"]
    else []
  let e3 :=
    if !(bot.name == "") && !(bot.name.toList.all isValidNameChar) then
      ["Bot name can only contain alphanumeric characters, underscores, and hyphens"]
    else []
  let e4 :=
    if (get_bot r bot.name).isSome then
      ["Bot with name '" ++ bot.name ++ "' already exists"]
    else []
  let e5 :=
    match bot.api_endpoint with
    | Option.some ep =>
      if ep == "" then []
      else if ep.startsWith ("http://") || ep.startsWith ("https://") then []
      else ["API endpoint must be a valid HTTP/HTTPS URL"]
    | Option.none => []
  e1 ++ e2 ++ e3 ++ e4 ++ e5

/-- `BotRegistry.add_bot`: raise `BotValidationError` listing every violated
rule, else store the bot under its name. -/
def add_bot (r : BotRegistry) (bot : FloBot) : Except PyExc BotRegistry :=
  let errs := add_bot_errors r bot
  if errs.isEmpty then .ok (r ++ [(bot.name, bot)])
  else .error (PyExc.botValidation (if bot.name == "" then "unknown" else bot.name) errs)

/-! ### LaunchManager -/

/-- A job enqueued on the background scheduler.  `apscheduler`'s `add_job`
is called without an explicit `id`, so every call creates a new job under a
fresh auto-generated id (modelled as a counter drawn from `LMState`); no
replacement ever happens. -/
structure Job where
  id : Nat
  runDate : Int
  botName : String
  kwargs : Kwargs
  deriving DecidableEq

/-- The per-bot rate-limit tracker `_rate_limit_tracker`: an
insertion-ordered map from bot name to the list of admitted-attempt
timestamps. -/
abbrev Tracker := List (String × List Int)

/-- Tracker lookup. -/
def trGet (tr : Tracker) (name : String) : Option (List Int) :=
  (tr.find? (fun kv => kv.1 == name)).map (fun kv => kv.2)

/-- Tracker update: overwrite the existing binding in place, or append a new
one (Python dict assignment). -/
def trSet (tr : Tracker) (name : String) (v : List Int) : Tracker :=
  if tr.any (fun kv => kv.1 == name) then
    tr.map (fun kv => if kv.1 == name then (kv.1, v) else kv)
  else
    tr ++ [(name, v)]

/-- The mutable state of a `LaunchManager` (plus its scheduler's job store
and the fresh-id counter standing in for apscheduler's id generation). -/
structure LMState where
  registry : BotRegistry
  enable_security : Bool := true
  rate_limit_per_minute : Nat := 10
  rate_limit_tracker : Tracker := []
  scheduler : List Job := []
  nextJobId : Nat := 0

/-- The trigger allow-list of `_validate_security`. -/
def allowed_triggers : List String := ["chat", "dashboard", "schedule", "api"]

/-- The `violation` message for a disallowed trigger, including the Python
`repr` of the allow-list as the f-string renders it. -/
def invalidTriggerMsg (trigger : String) : String :=
  "Invalid trigger type '" ++ trigger ++
    "'. Allowed: ['chat', 'dashboard', 'schedule', 'api']"

/-- The `BotSecurityError` raised for a disallowed trigger. -/
def invalidTriggerError (botName trigger : String) : PyExc :=
  PyExc.botSecurity botName (invalidTriggerMsg trigger)
    [("trigger", trigger), ("allowed_triggers", "['chat', 'dashboard', 'schedule', 'api']")]

/-- The `BotSecurityError` raised when a kwarg matches a suspicious pattern:
built from the bot name, the offending key, and the pattern source only —
the offending value does not occur in it. -/
def suspiciousContentError (botName key pat : String) : PyExc :=
  PyExc.botSecurity botName
    ("Suspicious content detected in parameter '" ++ key ++ "'")
    [("parameter", key), ("pattern", pat)]

/-- `LaunchManager._validate_security`, returning the tracker as it stands
when the method returns or raises (the source mutates
`self._rate_limit_tracker` in place, so the cleanup and the appended attempt
survive a later raise) together with the raised exception, if any.

Order of operations in the source: (1) skip everything when security is
disabled; (2) ensure the bot has a tracker entry; (3) purge entries older
than 60 seconds; (4) raise `BotRateLimitError` when the purged list has
reached the limit — without recording the attempt; (5) append the current
attempt; (6) raise `BotSecurityError` for a trigger outside the allow-list;
(7) scan string kwargs against `suspicious_patterns` and raise
`BotSecurityError` on the first match. -/
def validate_security (st : LMState) (botName trigger : String) (kwargs : Kwargs)
    (now : Int) : Tracker × Option PyExc :=
  if !st.enable_security then (st.rate_limit_tracker, Option.none)
  else
    let tr0 :=
      if (trGet st.rate_limit_tracker botName).isSome then st.rate_limit_tracker
      else trSet st.rate_limit_tracker botName []
    let cutoff := now - 60
    let cleaned := ((trGet tr0 botName).getD []).filter (fun t => decide (cutoff < t))
    let tr1 := trSet tr0 botName cleaned
    if st.rate_limit_per_minute ≤ cleaned.length then
      (tr1, Option.some (PyExc.botRateLimit botName "launch_rate" cleaned.length))
    else
      let tr2 := trSet tr1 botName (cleaned ++ [now])
      if !(allowed_triggers.contains trigger) then
        (tr2, Option.some (invalidTriggerError botName trigger))
      else
        match scanKwargs kwargs with
        | Option.some (k, p) => (tr2, Option.some (suspiciousContentError botName k p))
        | Option.none => (tr2, Option.none)

/-- `LaunchManager.launch`: validate security, look up the bot, run it.  The
whole body sits in a `try` whose first `except Exception` clause logs and
re-raises the exception unchanged (`raise` with no argument); the second
`except Exception` clause — the one that would wrap into `BotLaunchError` —
is unreachable, because the first clause already catches every exception.
So every failure propagates with its original type. -/
def launch (st : LMState) (botName trigger : String) (args : List PyVal)
    (kwargs : Kwargs) (http : HttpFn) (now : Int) : LMState × Except PyExc PyVal :=
  let v := validate_security st botName trigger kwargs now
  let st1 := { st with rate_limit_tracker := v.1 }
  match v.2 with
  | Option.some e => (st1, .error e)
  | Option.none =>
    match get_bot st1.registry botName with
    | Option.none => (st1, .error (PyExc.botNotFound botName))
    | Option.some bot =>
      match bot.run http args kwargs with
      | .ok res => (st1, .ok res)
      | .error e => (st1, .error e)

/-- `LaunchManager.launch_async`: looks the bot up directly — it never calls
`_validate_security` — raising `BotNotFoundError` on absence (the source
passes the message string `f"Bot '{bot_name}' not found"` where the
constructor expects the bare bot name, so that string lands in the
`bot_name` slot); any exception from `run_async` is wrapped as
`BotLaunchError(str(exc))`, whose single positional argument is likewise the
`bot_name` slot, leaving `cause = None`. -/
def launch_async (st : LMState) (botName trigger : String) (args : List PyVal)
    (kwargs : Kwargs) (http : HttpFn) : LMState × Except PyExc PyVal :=
  match get_bot st.registry botName with
  | Option.none =>
    (st, .error (PyExc.botNotFound ("Bot '" ++ botName ++ "' not found")))
  | Option.some bot =>
    match bot.run_async http args kwargs with
    | .ok res => (st, .ok res)
    | .error e => (st, .error (PyExc.botLaunch e.pyStr Option.none))

/-- The kwargs dict the scheduler will apply on fire:
`{"trigger": "schedule", **kwargs}`.  Dict-literal semantics: the
`"trigger"` key is inserted first with value `"schedule"`; unpacking the
caller's kwargs then overwrites that value when the caller supplied a
`"trigger"` key (keeping position 0) and appends the remaining entries in
order.  Caller kwargs have unique keys (`**kwargs` of a Python call). -/
def scheduled_kwargs (kwargs : Kwargs) : Kwargs :=
  match dictGet kwargs "trigger" with
  | Option.some v => ("trigger", v) :: kwargs.filter (fun kv => !(kv.1 == "trigger"))
  | Option.none => ("trigger", PyVal.str "schedule") :: kwargs

/-- `LaunchManager.schedule_launch`: enqueue a date job at
`time.time() + delay_seconds` with `args=(bot_name,)` and
`kwargs={"trigger": "schedule", **kwargs}`.  `add_job` is called without an
`id`, so apscheduler generates a fresh unique id and appends a new job; the
method is annotated `-> None` and returns `None`. -/
def schedule_launch (st : LMState) (botName : String) (delay_seconds : Int)
    (kwargs : Kwargs) (now : Int) : LMState × PyVal :=
  let job : Job :=
    { id := st.nextJobId
      runDate := now + delay_seconds
      botName := botName
      kwargs := scheduled_kwargs kwargs }
  ({ st with scheduler := st.scheduler ++ [job], nextJobId := st.nextJobId + 1 },
   PyVal.none)

/-- The `trigger` value the launch path receives when a job fires: the
scheduler calls `self.launch(bot_name, **job.kwargs)`, so Python binds the
`trigger` parameter from the kwargs dict's `"trigger"` key, falling back to
the parameter default `"chat"` when absent. -/
def fired_trigger (j : Job) : PyVal :=
  match dictGet j.kwargs "trigger" with
  | Option.some v => v
  | Option.none => PyVal.str "chat"

/-! ### Concrete fixtures used by witnesses and counterexamples -/

/-- Transport oracle that fails every request; none of the fixture bots is
endpoint-backed, so it is never consulted. -/
def httpNone : HttpFn := fun _ _ _ =>
  Except.error { typeName := "URLError", msg := "no network" }

/-- A callable-backed bot that always succeeds. -/
def echoBot : FloBot :=
  { name := "echo", category := "demo", description := "echo bot",
    launch_callable := Option.some (fun _ _ => Except.ok (PyVal.str "ok")) }

/-- A callable-backed bot that always succeeds with "hi". -/
def greeterBot : FloBot :=
  { name := "greeter", category := "demo", description := "greets",
    launch_callable := Option.some (fun _ _ => Except.ok (PyVal.str "hi")) }

/-- A callable-backed bot whose callable raises `ValueError("boom")`. -/
def boomBot : FloBot :=
  { name := "boom", category := "demo", description := "raises",
    launch_callable :=
      Option.some (fun _ _ => Except.error { typeName := "ValueError", msg := "boom" }) }

/-- A second definition registered under the name `"echo"` (different
metadata, same name). -/
def echoBot2 : FloBot :=
  { name := "echo", category := "demo", description := "a different echo bot",
    launch_callable := Option.some (fun _ _ => Except.ok (PyVal.str "ok2")) }

/-- A manager state with an empty registry and all constructor defaults. -/
def emptyState : LMState := { registry := [] }

/-- A manager state holding only `echoBot`, with constructor defaults
(security enabled, 10 launches per minute). -/
def oneBotState : LMState := { registry := [("echo", echoBot)] }

/-- A manager state holding only `greeterBot`, with constructor defaults. -/
def greeterState : LMState := { registry := [("greeter", greeterBot)] }

/-- A manager state holding only `boomBot`, with constructor defaults. -/
def boomState : LMState := { registry := [("boom", boomBot)] }

/-- A manager state holding only `echoBot`, constructed with
`enable_security=False`. -/
def noSecurityState : LMState :=
  { registry := [("echo", echoBot)], enable_security := false }

/-! ### Helper lemmas about the tracker, the registry and dispatch -/

/-- The per-unit timestamp list after the lazy purge, as `_validate_security`
computes it from the state it was entered with. -/
def cleaned_window (st : LMState) (botName : String) (now : Int) : List Int :=
  ((trGet st.rate_limit_tracker botName).getD []).filter (fun t => decide (now - 60 < t))

theorem trGet_map_replace (tr : Tracker) (n : String) (v : List Int)
    (h : tr.any (fun kv => kv.1 == n) = true) :
    trGet (tr.map (fun kv => if kv.1 == n then (kv.1, v) else kv)) n = Option.some v := by
  induction tr with
  | nil => simp at h
  | cons kv rest ih =>
    by_cases hk : kv.1 == n
    · simp [trGet, List.find?, hk]
    · have h' : rest.any (fun kv => kv.1 == n) = true := by
        simpa [List.any_cons, hk] using h
      simpa [trGet, List.find?, hk] using ih h'

theorem trGet_append_new (tr : Tracker) (n : String) (v : List Int)
    (h : tr.any (fun kv => kv.1 == n) = false) :
    trGet (tr ++ [(n, v)]) n = Option.some v := by
  induction tr with
  | nil => simp [trGet, List.find?]
  | cons kv rest ih =>
    have hk : (kv.1 == n) = false := by
      by_contra hc
      simp [List.any_cons, eq_true_of_ne_false hc] at h
    have h' : rest.any (fun kv => kv.1 == n) = false := by
      simpa [List.any_cons, hk] using h
    simpa [trGet, List.find?, hk] using ih h'

/-- Updating a key and reading it back yields the written value. -/
theorem trGet_trSet_self (tr : Tracker) (n : String) (v : List Int) :
    trGet (trSet tr n v) n = Option.some v := by
  unfold trSet
  by_cases h : tr.any (fun kv => kv.1 == n)
  · rw [if_pos h]; exact trGet_map_replace tr n v h
  · rw [if_neg h]
    exact trGet_append_new tr n v (by simp only [Bool.not_eq_true] at h; exact h)

theorem get_bot_append_new (r : BotRegistry) (n : String) (b : FloBot)
    (h : r.find? (fun kv => kv.1 == n) = Option.none) :
    get_bot (r ++ [(n, b)]) n = Option.some b := by
  induction r with
  | nil => simp [get_bot, List.find?]
  | cons kv rest ih =>
    by_cases hk : kv.1 == n
    · simp [List.find?, hk] at h
    · have h' : rest.find? (fun kv => kv.1 == n) = Option.none := by
        simpa [List.find?, hk] using h
      simpa [get_bot, List.find?, hk] using ih h'

/-- Every exception escaping `FloBot.run` is either a propagated generic
exception (from the callable or the transport) or the `TypeError` of the
no-launch-method guard; in particular it is never one of the `BotError`
variants. -/
theorem run_error_shape (bot : FloBot) (http : HttpFn) (args : List PyVal)
    (kwargs : Kwargs) (e : PyExc) (h : bot.run http args kwargs = Except.error e) :
    (∃ tn m, e = PyExc.generic tn m) ∨ e = noLaunchMethodTypeError := by
  cases hc : bot.launch_callable with
  | some f =>
    cases hr : f args kwargs with
    | ok v => simp [FloBot.run, hc, hr] at h
    | error g =>
      simp [FloBot.run, hc, hr] at h
      exact Or.inl ⟨g.typeName, g.msg, h.symm⟩
  | none =>
    by_cases he : epTruthy bot.api_endpoint
    · cases hep : bot.api_endpoint with
      | some ep =>
        rw [hep] at he
        cases hr : http ep args kwargs with
        | ok s => simp [FloBot.run, hc, he, hep, hr] at h
        | error g =>
          simp [FloBot.run, hc, he, hep, hr] at h
          exact Or.inl ⟨g.typeName, g.msg, h.symm⟩
      | none => rw [hep] at he; simp [epTruthy] at he
    · simp [FloBot.run, hc, he] at h
      exact Or.inr h.symm

/-- The kwarg scan skips non-string values: a kwargs list with no
string-valued entry never produces a match. -/
theorem scanKwargs_of_no_str (kwargs : Kwargs)
    (h : ∀ kv ∈ kwargs, ∀ s, kv.2 ≠ PyVal.str s) :
    scanKwargs kwargs = Option.none := by
  induction kwargs with
  | nil => rfl
  | cons kv rest ih =>
    have hrest : ∀ kv ∈ rest, ∀ s, kv.2 ≠ PyVal.str s :=
      fun kv hm => h kv (List.mem_cons_of_mem _ hm)
    obtain ⟨k, v⟩ := kv
    cases v with
    | str s => exact absurd rfl (h (k, PyVal.str s) (List.mem_cons_self _ _) s)
    | none => simpa [scanKwargs] using ih hrest
    | other tag => simpa [scanKwargs] using ih hrest

/-- With security disabled, `_validate_security` returns immediately: the
tracker is untouched and nothing is raised. -/
theorem validate_security_disabled (st : LMState) (botName trigger : String)
    (kwargs : Kwargs) (now : Int) (h : st.enable_security = false) :
    validate_security st botName trigger kwargs now =
      (st.rate_limit_tracker, Option.none) := by
  simp [validate_security, h]

/-- With security enabled, the purged per-unit list `_validate_security`
works with is `cleaned_window` of the entry state, whether or not the unit
already had a tracker entry. -/
theorem validate_security_eq_enabled (st : LMState) (botName trigger : String)
    (kwargs : Kwargs) (now : Int) (hsec : st.enable_security = true) :
    validate_security st botName trigger kwargs now =
      (let tr0 := if (trGet st.rate_limit_tracker botName).isSome then st.rate_limit_tracker
                  else trSet st.rate_limit_tracker botName []
       let cleaned := cleaned_window st botName now
       let tr1 := trSet tr0 botName cleaned
       if st.rate_limit_per_minute ≤ cleaned.length then
         (tr1, Option.some (PyExc.botRateLimit botName "launch_rate" cleaned.length))
       else
         let tr2 := trSet tr1 botName (cleaned ++ [now])
         if !(allowed_triggers.contains trigger) then
           (tr2, Option.some (invalidTriggerError botName trigger))
         else
           match scanKwargs kwargs with
           | Option.some (k, p) => (tr2, Option.some (suspiciousContentError botName k p))
           | Option.none => (tr2, Option.none)) := by
  unfold validate_security cleaned_window
  rw [hsec]
  cases h0 : trGet st.rate_limit_tracker botName with
  | some l => simp [h0]
  | none => simp [h0, trGet_trSet_self]

/-- With security enabled and rate budget remaining, the exception (if any)
raised by `_validate_security` is the trigger check's, else the kwarg
scan's. -/
theorem validate_security_snd_admitted (st : LMState) (botName trigger : String)
    (kwargs : Kwargs) (now : Int)
    (hsec : st.enable_security = true)
    (hbudget : (cleaned_window st botName now).length < st.rate_limit_per_minute) :
    (validate_security st botName trigger kwargs now).2 =
      (if !(allowed_triggers.contains trigger) then
        Option.some (invalidTriggerError botName trigger)
       else
        match scanKwargs kwargs with
        | Option.some (k, p) => Option.some (suspiciousContentError botName k p)
        | Option.none => Option.none) := by
  rw [validate_security_eq_enabled st botName trigger kwargs now hsec]
  dsimp only
  rw [if_neg (Nat.not_le.mpr hbudget)]
  cases hscan : scanKwargs kwargs with
  | some kp =>
    obtain ⟨k, p⟩ := kp
    cases hct : allowed_triggers.contains trigger <;> simp [hscan, hct]
  | none =>
    cases hct : allowed_triggers.contains trigger <;> simp [hscan, hct]

/-- With security enabled and rate budget remaining, the attempt is recorded
before any trigger or kwarg check: whatever `_validate_security` then
raises, on return the unit's tracker entry is the purged list with the
current timestamp appended. -/
theorem validate_security_fst_admitted (st : LMState) (botName trigger : String)
    (kwargs : Kwargs) (now : Int)
    (hsec : st.enable_security = true)
    (hbudget : (cleaned_window st botName now).length < st.rate_limit_per_minute) :
    trGet (validate_security st botName trigger kwargs now).1 botName =
      Option.some (cleaned_window st botName now ++ [now]) := by
  rw [validate_security_eq_enabled st botName trigger kwargs now hsec]
  dsimp only
  rw [if_neg (Nat.not_le.mpr hbudget)]
  cases hscan : scanKwargs kwargs with
  | some kp =>
    obtain ⟨k, p⟩ := kp
    cases hct : allowed_triggers.contains trigger <;> simp [hscan, hct, trGet_trSet_self]
  | none =>
    cases hct : allowed_triggers.contains trigger <;> simp [hscan, hct, trGet_trSet_self]

/-! ### Claim C6 -/

/-- C6: with `rate_limit_per_minute = 3`, four launches of the same unit
with an allowed trigger within 60 seconds admit exactly the first three and
raise `BotRateLimitError` on the fourth; the rejected attempt is not
appended to the timestamp list (it stays `[0, 10, 20]`); and a call after
the window has elapsed (at `t = 95`, cutoff `35`) is admitted again. -/
theorem c6_rate_window :
    let st0 : LMState := { registry := [("echo", echoBot)], rate_limit_per_minute := 3 }
    let r1 := launch st0 "echo" "api" [] [] httpNone 0
    let r2 := launch r1.1 "echo" "api" [] [] httpNone 10
    let r3 := launch r2.1 "echo" "api" [] [] httpNone 20
    let r4 := launch r3.1 "echo" "api" [] [] httpNone 30
    let r5 := launch r4.1 "echo" "api" [] [] httpNone 95
    r1.2 = Except.ok (PyVal.str "ok") ∧
    r2.2 = Except.ok (PyVal.str "ok") ∧
    r3.2 = Except.ok (PyVal.str "ok") ∧
    r4.2 = Except.error (PyExc.botRateLimit "echo" "launch_rate" 3) ∧
    r4.1.rate_limit_tracker = [("echo", [0, 10, 20])] ∧
    r5.2 = Except.ok (PyVal.str "ok") ∧
    r5.1.rate_limit_tracker = [("echo", [95])] := by
  dsimp only
  decide

/-! ### Claim C8 -/

/-- C8: a `FloBot` with neither a callable nor an endpoint does fail at
invocation time, synchronously and asynchronously — but with Python's
`TypeError` (the guard constructs `BotValidationError` with one positional
argument where its `__init__` requires two), not with the
`BotValidationError` the claim describes. -/
theorem c8_missing_launch_method_type_error :
    let ghost : FloBot := { name := "ghost", category := "demo", description := "empty" }
    ghost.run httpNone [] [] = Except.error noLaunchMethodTypeError ∧
    FloBot.run_async ghost httpNone [] [] = Except.error noLaunchMethodTypeError ∧
    ∀ n errs, ghost.run httpNone [] [] ≠ Except.error (PyExc.botValidation n errs) := by
  refine ⟨rfl, rfl, ?_⟩
  intro n errs h
  simp [FloBot.run, epTruthy, noLaunchMethodTypeError] at h

/-! ### Claim C7 -/

/-- An empty validation-error list forces: the name was non-empty and not
yet present in the registry. -/
theorem add_bot_errors_nil_elim (r : BotRegistry) (b : FloBot)
    (h : add_bot_errors r b = []) :
    (b.name == "") = false ∧ get_bot r b.name = Option.none := by
  unfold add_bot_errors at h
  dsimp only at h
  constructor
  · by_contra hc
    have hb : (b.name == "") = true := by simpa using hc
    simp [hb] at h
  · by_contra hc
    have hb : (get_bot r b.name).isSome = true := Option.isSome_iff_ne_none.mpr hc
    simp [hb] at h

/-- Inversion of a successful `add_bot`: the new registry is the old one
with the bot appended, and no validation rule was violated. -/
theorem add_bot_ok_elim (r : BotRegistry) (b : FloBot) (r' : BotRegistry)
    (h : add_bot r b = Except.ok r') :
    r' = r ++ [(b.name, b)] ∧ add_bot_errors r b = [] := by
  unfold add_bot at h
  dsimp only at h
  by_cases hemp : (add_bot_errors r b).isEmpty = true
  · rw [if_pos hemp] at h
    injection h with h'
    exact ⟨h'.symm, List.isEmpty_iff.mp hemp⟩
  · rw [if_neg hemp] at h
    simp at h

/-- A duplicate name puts the already-exists message into the validation
error list. -/
theorem add_bot_errors_mem_duplicate (r : BotRegistry) (b : FloBot)
    (hsome : (get_bot r b.name).isSome = true) :
    ("Bot with name '" ++ b.name ++ "' already exists") ∈ add_bot_errors r b := by
  unfold add_bot_errors
  dsimp only
  rw [hsome]
  simp

/-- C7: after a successful registration of `b`, a second `add_bot` with any
definition carrying the same name fails with `BotValidationError` whose
error list contains the duplicate-name message, and the first definition is
still the one the registry returns for that name (the raise happens before
the store, so the registry is unchanged). -/
theorem c7_duplicate_add_rejected (r r' : BotRegistry) (b b' : FloBot)
    (hname : b'.name = b.name) (h1 : add_bot r b = Except.ok r') :
    (∃ errs, add_bot r' b' = Except.error (PyExc.botValidation b.name errs) ∧
       ("Bot with name '" ++ b.name ++ "' already exists") ∈ errs) ∧
    get_bot r' b.name = Option.some b := by
  obtain ⟨hr', hnil⟩ := add_bot_ok_elim r b r' h1
  obtain ⟨hn, habsent⟩ := add_bot_errors_nil_elim r b hnil
  have hfind : r.find? (fun kv => kv.1 == b.name) = Option.none := by
    have hg := habsent
    unfold get_bot at hg
    exact Option.map_eq_none'.mp hg
  have hget' : get_bot r' b.name = Option.some b := by
    rw [hr']
    exact get_bot_append_new r b.name b hfind
  refine ⟨?_, hget'⟩
  have hsome' : (get_bot r' b'.name).isSome = true := by
    rw [hname, hget']
    rfl
  have hmem : ("Bot with name '" ++ b.name ++ "' already exists") ∈ add_bot_errors r' b' := by
    have := add_bot_errors_mem_duplicate r' b' hsome'
    rwa [hname] at this
  have hne : ¬((add_bot_errors r' b').isEmpty = true) := by
    rw [List.isEmpty_iff]
    intro hnil'
    rw [hnil'] at hmem
    cases hmem
  refine ⟨add_bot_errors r' b', ?_, hmem⟩
  unfold add_bot
  dsimp only
  rw [if_neg hne, hname, if_neg (by simp [hn])]

/-- Witness for C7 at a concrete input: register `echoBot` into an empty
registry, then try to register `echoBot2` (same name, different
definition). -/
theorem c7_witness :
    (∃ errs, add_bot [("echo", echoBot)] echoBot2 =
        Except.error (PyExc.botValidation "echo" errs) ∧
       ("Bot with name 'echo' already exists") ∈ errs) ∧
    get_bot [("echo", echoBot)] "echo" = Option.some echoBot := by
  exact c7_duplicate_add_rejected [] [("echo", echoBot)] echoBot echoBot2 rfl rfl

/-! ### Claim C1 -/

/-- When `_validate_security` raises nothing, any exception out of `launch`
comes from the registry lookup (`BotNotFoundError`) or from the dispatch
(`generic` or the guard's `TypeError`); never from the gate or the
limiter. -/
theorem launch_error_shape_of_validate_none (st : LMState) (botName trigger : String)
    (args : List PyVal) (kwargs : Kwargs) (http : HttpFn) (now : Int) (e : PyExc)
    (hv : (validate_security st botName trigger kwargs now).2 = Option.none)
    (h : (launch st botName trigger args kwargs http now).2 = Except.error e) :
    e = PyExc.botNotFound botName ∨ (∃ tn m, e = PyExc.generic tn m) ∨
      e = noLaunchMethodTypeError := by
  unfold launch at h
  dsimp only at h
  rw [hv] at h
  dsimp only at h
  cases hg : get_bot st.registry botName with
  | none =>
    rw [hg] at h
    dsimp only at h
    injection h with h'
    exact Or.inl h'.symm
  | some bot =>
    rw [hg] at h
    dsimp only at h
    cases hr : bot.run http args kwargs with
    | ok res => rw [hr] at h; cases h
    | error e2 =>
      rw [hr] at h
      dsimp only at h
      injection h with h'
      rw [← h']
      exact Or.inr (run_error_shape bot http args kwargs e2 hr)

/-- C1 (amended): a launch with a trigger outside the allow-list is rejected
with `BotSecurityError` — but only after rate-limit accounting, not before:
when the limiter still has budget, the attempt's timestamp is appended to
the per-unit list before the trigger check runs, so the rejected call does
consume budget. -/
theorem c1_security_error_after_rate_accounting (st : LMState)
    (botName trigger : String) (args : List PyVal) (kwargs : Kwargs)
    (http : HttpFn) (now : Int)
    (hsec : st.enable_security = true)
    (htrig : allowed_triggers.contains trigger = false)
    (hbudget : (cleaned_window st botName now).length < st.rate_limit_per_minute) :
    (launch st botName trigger args kwargs http now).2 =
      Except.error (invalidTriggerError botName trigger) ∧
    trGet (launch st botName trigger args kwargs http now).1.rate_limit_tracker botName =
      Option.some (cleaned_window st botName now ++ [now]) := by
  have hsnd := validate_security_snd_admitted st botName trigger kwargs now hsec hbudget
  have hfst := validate_security_fst_admitted st botName trigger kwargs now hsec hbudget
  rw [htrig] at hsnd
  simp only [Bool.not_false, if_true] at hsnd
  constructor
  · unfold launch
    dsimp only
    rw [hsnd]
  · unfold launch
    dsimp only
    rw [hsnd]
    dsimp only
    exact hfst

/-- Witness for C1 at a concrete input: one registered bot, empty tracker,
trigger `"evil"`, at time 0. -/
theorem c1_witness :
    oneBotState.enable_security = true ∧
    allowed_triggers.contains "evil" = false ∧
    (cleaned_window oneBotState "echo" 0).length < oneBotState.rate_limit_per_minute ∧
    ((launch oneBotState "echo" "evil" [] [] httpNone 0).2 =
        Except.error (invalidTriggerError "echo" "evil") ∧
      trGet (launch oneBotState "echo" "evil" [] [] httpNone 0).1.rate_limit_tracker "echo" =
        Option.some (cleaned_window oneBotState "echo" 0 ++ [0])) :=
  ⟨rfl, by decide, by decide,
    c1_security_error_after_rate_accounting oneBotState "echo" "evil" [] [] httpNone 0
      rfl (by decide) (by decide)⟩

/-- Counterexample to C1 as stated: with full budget (empty tracker, limit
10), launching with disallowed trigger `"evil"` is rejected with
`BotSecurityError`, yet the per-unit timestamp list is NOT the same as
before — the unit had no entry, and after the rejected call its entry is
`[0]`: the attempt was recorded before the trigger check. -/
theorem c1_counterexample :
    (launch oneBotState "echo" "evil" [] [] httpNone 0).2 =
      Except.error (invalidTriggerError "echo" "evil") ∧
    trGet oneBotState.rate_limit_tracker "echo" = Option.none ∧
    trGet (launch oneBotState "echo" "evil" [] [] httpNone 0).1.rate_limit_tracker "echo" =
      Option.some [0] := by
  decide

/-! ### Claim C2 -/

/-- C2 (amended): when a scheduled job fires, the launch path receives
trigger `"schedule"` only when the caller's kwargs did not themselves carry
a `"trigger"` key; `{"trigger": "schedule", **kwargs}` lets a caller-supplied
`"trigger"` entry overwrite the forced value, so the fired trigger is the
caller's value whenever one was given. -/
theorem c2_trigger_forced_unless_caller_overrides (st : LMState) (botName : String)
    (delay_seconds : Int) (kwargs : Kwargs) (now : Int) :
    ∃ j, (schedule_launch st botName delay_seconds kwargs now).1.scheduler =
        st.scheduler ++ [j] ∧
      fired_trigger j = ((dictGet kwargs "trigger").getD (PyVal.str "schedule")) := by
  refine ⟨_, rfl, ?_⟩
  unfold fired_trigger scheduled_kwargs
  cases h : dictGet kwargs "trigger" with
  | some v => simp [dictGet, List.find?]
  | none => simp [dictGet, List.find?]

/-- Counterexample to C2 as stated: scheduling with caller kwargs that carry
`"trigger": "chat"` produces a job whose fired trigger is `"chat"`, not the
claimed forced `"schedule"`. -/
theorem c2_counterexample :
    (schedule_launch emptyState "echo" 5 [("trigger", PyVal.str "chat")] 0).1.scheduler =
      [{ id := 0, runDate := 5, botName := "echo",
         kwargs := [("trigger", PyVal.str "chat")] }] ∧
    fired_trigger (⟨0, 5, "echo", [("trigger", PyVal.str "chat")]⟩ : Job) =
      PyVal.str "chat" ∧
    PyVal.str "chat" ≠ PyVal.str "schedule" := by
  decide

/-! ### Claim C3 -/

/-- C3 (amended): `schedule_launch` is annotated `-> None` and returns
`None` — it never returns a job id of any form — and because `add_job` is
called without an explicit id, every call appends a brand-new job under a
fresh auto-generated id: rescheduling the same unit for the same instant
adds a second pending job rather than replacing the first. -/
theorem c3_schedule_returns_none_appends_job (st : LMState) (botName : String)
    (delay_seconds : Int) (kwargs : Kwargs) (now : Int)
    (hfresh : ∀ j ∈ st.scheduler, j.id < st.nextJobId) :
    (schedule_launch st botName delay_seconds kwargs now).2 = PyVal.none ∧
    ∃ j, (schedule_launch st botName delay_seconds kwargs now).1.scheduler =
        st.scheduler ++ [j] ∧
      j.botName = botName ∧ j.runDate = now + delay_seconds ∧
      ∀ j' ∈ st.scheduler, j'.id ≠ j.id := by
  refine ⟨rfl, _, rfl, rfl, rfl, ?_⟩
  intro j' hj'
  exact Nat.ne_of_lt (hfresh j' hj')

/-- Witness for C3 at a concrete input: scheduling `"echo"` five seconds
ahead on a fresh manager. -/
theorem c3_witness :
    (schedule_launch emptyState "echo" 5 [] 0).2 = PyVal.none ∧
    ∃ j, (schedule_launch emptyState "echo" 5 [] 0).1.scheduler =
        emptyState.scheduler ++ [j] ∧
      j.botName = "echo" ∧ j.runDate = 0 + 5 ∧
      ∀ j' ∈ emptyState.scheduler, j'.id ≠ j.id :=
  c3_schedule_returns_none_appends_job emptyState "echo" 5 [] 0 (by simp [emptyState])

/-- Counterexample to C3 as stated: the call returns `None`, not the string
`"launch:echo:5"`; and two immediate identical schedulings leave two pending
jobs for the same unit and fire second, so two fires, not one, would be
observed. -/
theorem c3_counterexample :
    (schedule_launch emptyState "echo" 5 [] 0).2 = PyVal.none ∧
    (schedule_launch emptyState "echo" 5 [] 0).2 ≠ PyVal.str "launch:echo:5" ∧
    (schedule_launch (schedule_launch emptyState "echo" 5 [] 0).1 "echo" 5 [] 0).1.scheduler =
      [{ id := 0, runDate := 5, botName := "echo",
         kwargs := [("trigger", PyVal.str "schedule")] },
       { id := 1, runDate := 5, botName := "echo",
         kwargs := [("trigger", PyVal.str "schedule")] }] := by
  decide

/-! ### Claim C4 -/

/-- C4 (amended): when a registered local callable raises, `launch` logs the
failure and re-raises the original exception unchanged — the caller receives
the original exception type, never a `BotLaunchError` wrapper (the `except`
clause that would wrap is unreachable dead code behind the one that
re-raises). -/
theorem c4_original_exception_reraised (st : LMState) (botName trigger : String)
    (args : List PyVal) (kwargs : Kwargs) (http : HttpFn) (now : Int)
    (bot : FloBot) (f : BotCallable) (e : GenExc)
    (hval : (validate_security st botName trigger kwargs now).2 = Option.none)
    (hbot : get_bot st.registry botName = Option.some bot)
    (hcall : bot.launch_callable = Option.some f)
    (hraise : f args kwargs = Except.error e) :
    (launch st botName trigger args kwargs http now).2 =
      Except.error (PyExc.generic e.typeName e.msg) ∧
    ∀ n c, (launch st botName trigger args kwargs http now).2 ≠
      Except.error (PyExc.botLaunch n c) := by
  have hrun : bot.run http args kwargs = Except.error (PyExc.generic e.typeName e.msg) := by
    simp [FloBot.run, hcall, hraise]
  have hl : (launch st botName trigger args kwargs http now).2 =
      Except.error (PyExc.generic e.typeName e.msg) := by
    unfold launch
    dsimp only
    rw [hval]
    dsimp only
    rw [hbot]
    dsimp only
    rw [hrun]
  refine ⟨hl, ?_⟩
  intro n c hcontra
  rw [hl] at hcontra
  simp at hcontra

/-- Witness for C4 at a concrete input: `boomBot`'s callable raises
`ValueError("boom")`; the launch result is that very exception. -/
theorem c4_witness :
    (launch boomState "boom" "chat" [] [] httpNone 0).2 =
      Except.error (PyExc.generic "ValueError" "boom") ∧
    ∀ n c, (launch boomState "boom" "chat" [] [] httpNone 0).2 ≠
      Except.error (PyExc.botLaunch n c) :=
  c4_original_exception_reraised boomState "boom" "chat" [] [] httpNone 0
    boomBot _ { typeName := "ValueError", msg := "boom" } rfl rfl rfl rfl

/-- Counterexample to C4 as stated: the caller receives the original
`ValueError`, not a `BotLaunchError` carrying the message as cause. -/
theorem c4_counterexample :
    (launch boomState "boom" "chat" [] [] httpNone 0).2 =
      Except.error (PyExc.generic "ValueError" "boom") ∧
    (launch boomState "boom" "chat" [] [] httpNone 0).2 ≠
      Except.error (PyExc.botLaunch "boom" (Option.some "boom")) := by
  decide

/-! ### Claim C5 -/

/-- C5 (amended): `launch_async` does not mirror `launch`'s gate — it never
calls `_validate_security` at all.  It leaves the rate-limit state (and the
whole manager state) untouched, can never raise `BotSecurityError` or
`BotRateLimitError`, and raises `BotNotFoundError` exactly when the unit is
unregistered (with the message string in the `bot_name` slot); exceptions
from the run are wrapped as `BotLaunchError(str(exc))` — unlike `launch`,
which re-raises them. -/
theorem c5_async_skips_security_gate (st : LMState) (botName trigger : String)
    (args : List PyVal) (kwargs : Kwargs) (http : HttpFn) :
    (launch_async st botName trigger args kwargs http).1 = st ∧
    (∀ n v m, (launch_async st botName trigger args kwargs http).2 ≠
      Except.error (PyExc.botSecurity n v m)) ∧
    (∀ n l a, (launch_async st botName trigger args kwargs http).2 ≠
      Except.error (PyExc.botRateLimit n l a)) ∧
    ((launch_async st botName trigger args kwargs http).2 =
        Except.error (PyExc.botNotFound ("Bot '" ++ botName ++ "' not found")) ↔
      get_bot st.registry botName = Option.none) := by
  cases hg : get_bot st.registry botName with
  | none =>
    refine ⟨?_, ?_, ?_, ?_⟩
    · simp [launch_async, hg]
    · intro n v m h
      simp [launch_async, hg] at h
    · intro n l a h
      simp [launch_async, hg] at h
    · simp [launch_async, hg]
  | some bot =>
    cases hr : bot.run_async http args kwargs with
    | ok res =>
      refine ⟨?_, ?_, ?_, ?_⟩
      · simp [launch_async, hg, hr]
      · intro n v m h
        simp [launch_async, hg, hr] at h
      · intro n l a h
        simp [launch_async, hg, hr] at h
      · constructor
        · intro h
          simp [launch_async, hg, hr] at h
        · intro h
          simp at h
    | error e2 =>
      refine ⟨?_, ?_, ?_, ?_⟩
      · simp [launch_async, hg, hr]
      · intro n v m h
        simp [launch_async, hg, hr] at h
      · intro n l a h
        simp [launch_async, hg, hr] at h
      · constructor
        · intro h
          simp [launch_async, hg, hr] at h
        · intro h
          simp at h

/-- Counterexample to C5 as stated: with the same registered unit and the
same disallowed trigger `"evil"`, `launch` raises `BotSecurityError` while
`launch_async` happily runs the bot — the two paths do not raise under the
same conditions. -/
theorem c5_counterexample :
    (launch greeterState "greeter" "evil" [] [] httpNone 0).2 =
      Except.error (invalidTriggerError "greeter" "evil") ∧
    (launch_async greeterState "greeter" "evil" [] [] httpNone).2 =
      Except.ok (PyVal.str "hi") := by
  decide

/-! ### Claim C9 -/

/-- C9: under an allowed trigger and remaining budget, if the kwarg scan
finds a first match `(key, pattern)` — kwargs scanned in insertion order,
patterns in list order, non-string values skipped — then `launch` raises
exactly `suspiciousContentError botName key pattern`, an error built from
the unit name, the offending key and the pattern source only (the offending
value does not occur in it); and if no kwarg value is a string, the scan
finds nothing and no `BotSecurityError` of any kind is raised. -/
theorem c9_injection_scan (st : LMState) (botName trigger : String)
    (args : List PyVal) (kwargs : Kwargs) (http : HttpFn) (now : Int)
    (hsec : st.enable_security = true)
    (htrig : allowed_triggers.contains trigger = true)
    (hbudget : (cleaned_window st botName now).length < st.rate_limit_per_minute) :
    (∀ k p, scanKwargs kwargs = Option.some (k, p) →
      (launch st botName trigger args kwargs http now).2 =
        Except.error (suspiciousContentError botName k p)) ∧
    ((∀ kv ∈ kwargs, ∀ s, kv.2 ≠ PyVal.str s) →
      scanKwargs kwargs = Option.none ∧
      ∀ n v m, (launch st botName trigger args kwargs http now).2 ≠
        Except.error (PyExc.botSecurity n v m)) := by
  have hsnd := validate_security_snd_admitted st botName trigger kwargs now hsec hbudget
  rw [htrig] at hsnd
  simp only [Bool.not_true, Bool.false_eq_true, if_false] at hsnd
  constructor
  · intro k p hscan
    rw [hscan] at hsnd
    unfold launch
    dsimp only
    rw [hsnd]
  · intro hnostr
    have hscan := scanKwargs_of_no_str kwargs hnostr
    refine ⟨hscan, ?_⟩
    rw [hscan] at hsnd
    intro n v m hcontra
    rcases launch_error_shape_of_validate_none st botName trigger args kwargs http now
        (PyExc.botSecurity n v m) hsnd hcontra with he | ⟨tn, m2, he⟩ | he <;>
      simp [noLaunchMethodTypeError] at he

/-- Witness for C9 at a concrete input: the spec's own example —
`launch("greeter", "api", payload="<script>alert(1)</script>")`.  The first
matching key is `"payload"`, the first matching pattern `<script\b`, and the
raised error names exactly those. -/
theorem c9_witness :
    scanKwargs [("payload", PyVal.str "<script>alert(1)</script>")] =
      Option.some ("payload", "<script\\b") ∧
    (launch greeterState "greeter" "api" []
        [("payload", PyVal.str "<script>alert(1)</script>")] httpNone 0).2 =
      Except.error (suspiciousContentError "greeter" "payload" "<script\\b") :=
  ⟨by decide,
    (c9_injection_scan greeterState "greeter" "api" []
        [("payload", PyVal.str "<script>alert(1)</script>")] httpNone 0
        rfl (by decide) (by decide)).1 "payload" "<script\\b" (by decide)⟩

/-! ### Claim C10 -/

/-- C10: with `enable_security=False`, `_validate_security` returns before
touching anything, so `launch` never rejects: for every trigger (allowed or
not) and every kwargs (pattern-matching or not), no `BotSecurityError` and
no `BotRateLimitError` is ever raised, and the rate-limit tracker is left
exactly as it was. -/
theorem c10_security_disabled_no_gate (st : LMState) (botName trigger : String)
    (args : List PyVal) (kwargs : Kwargs) (http : HttpFn) (now : Int)
    (hsec : st.enable_security = false) :
    (launch st botName trigger args kwargs http now).1.rate_limit_tracker =
      st.rate_limit_tracker ∧
    (∀ n v m, (launch st botName trigger args kwargs http now).2 ≠
      Except.error (PyExc.botSecurity n v m)) ∧
    (∀ n l a, (launch st botName trigger args kwargs http now).2 ≠
      Except.error (PyExc.botRateLimit n l a)) := by
  have hv := validate_security_disabled st botName trigger kwargs now hsec
  have hv2 : (validate_security st botName trigger kwargs now).2 = Option.none := by
    rw [hv]
  refine ⟨?_, ?_, ?_⟩
  · unfold launch
    dsimp only
    rw [hv]
    dsimp only
    cases hg : get_bot st.registry botName with
    | none => rfl
    | some bot =>
      dsimp only
      cases hr : bot.run http args kwargs with
      | ok res => rfl
      | error e2 => rfl
  · intro n v m hcontra
    rcases launch_error_shape_of_validate_none st botName trigger args kwargs http now
        (PyExc.botSecurity n v m) hv2 hcontra with he | ⟨tn, m2, he⟩ | he <;>
      simp [noLaunchMethodTypeError] at he
  · intro n l a hcontra
    rcases launch_error_shape_of_validate_none st botName trigger args kwargs http now
        (PyExc.botRateLimit n l a) hv2 hcontra with he | ⟨tn, m2, he⟩ | he <;>
      simp [noLaunchMethodTypeError] at he

/-- Witness for C10 at a concrete input: security disabled, disallowed
trigger `"evil"`, a pattern-matching kwarg — nothing is rejected and the
tracker stays empty. -/
theorem c10_witness :
    noSecurityState.enable_security = false ∧
    ((launch noSecurityState "echo" "evil" []
        [("payload", PyVal.str "<script>alert(1)</script>")] httpNone 0).1.rate_limit_tracker =
      noSecurityState.rate_limit_tracker ∧
    (∀ n v m, (launch noSecurityState "echo" "evil" []
        [("payload", PyVal.str "<script>alert(1)</script>")] httpNone 0).2 ≠
      Except.error (PyExc.botSecurity n v m)) ∧
    (∀ n l a, (launch noSecurityState "echo" "evil" []
        [("payload", PyVal.str "<script>alert(1)</script>")] httpNone 0).2 ≠
      Except.error (PyExc.botRateLimit n l a))) :=
  ⟨rfl,
    c10_security_disabled_no_gate noSecurityState "echo" "evil" []
      [("payload", PyVal.str "<script>alert(1)</script>")] httpNone 0 rfl⟩
